import Mathlib

/-
  Verification development for the nevermined-io/ai-agents-workshop repository.

  The Python agents are embedded shallowly: each handler becomes a pure
  function from its external inputs (the fetched step, API outcomes, balances,
  HTTP results) to the list of protocol effects it performs, in order
  (update_step, create_steps, create_task, log_task, get_plan_balance,
  order_plan, get_task_with_steps).  SDK calls are modelled as non-failing
  effect emissions; their payloads are recorded verbatim.  Python dict
  truthiness (None and the empty string and the empty list are falsy) is
  modelled explicitly where the source relies on it.
-/

namespace Workshop

/-- A step record as fetched from the AI protocol (src/4_agent2agent.py and
src/3_multistep_agent.py read the fields step_id, task_id, did, name,
step_status, input_query, is_last).  Statuses are the strings of the
payments_py AgentExecutionStatus enum values: "Pending", "In_Progress",
"Completed", "Failed". -/
structure Step where
  step_id : String
  task_id : String
  did : String
  name : String
  step_status : String
  input_query : String
  is_last : Bool
deriving Repr, DecidableEq

/-- The event payload delivered to an agent run method:
data = \x7bstep_id, task_id, did\x7d. -/
structure EventData where
  step_id : String
  task_id : String
  did : String
deriving Repr, DecidableEq

/-- A new step record as passed to create_steps by the init handlers. -/
structure NewStep where
  step_id : String
  task_id : String
  predecessor : String
  name : String
  is_last : Bool
deriving Repr, DecidableEq

/-- A partial step-update dict as passed to update_step.  A field that is
none models a key absent from the Python dict. -/
structure StepUpdate where
  step_id : Option String := none
  task_id : Option String := none
  step_status : Option String := none
  output : Option String := none
  is_last : Option Bool := none
  output_artifacts : Option (List String) := none
deriving Repr, DecidableEq

/-- A task log record (payments_py TaskLog): task_id, message, level, and an
optional task_status. -/
structure TaskLog where
  task_id : String
  message : String
  level : String
  task_status : Option String := none
deriving Repr, DecidableEq

/-- One externally visible protocol call made by an agent handler, with its
payload. -/
inductive Effect where
  | getPlanBalance (planDid : String)
  | orderPlan (planDid : String)
  | createTask (agentDid : String) (query : String) (name : String)
  | createSteps (did : String) (taskId : String) (steps : List NewStep)
  | updateStep (did : String) (taskId : String) (stepId : String) (upd : StepUpdate)
  | logTask (log : TaskLog)
  | getTaskWithSteps (agentDid : String) (taskId : String)
deriving Repr, DecidableEq

def Effect.isOrderPlan : Effect → Bool
  | .orderPlan _ => true
  | _ => false

def Effect.isCreateTask : Effect → Bool
  | .createTask .. => true
  | _ => false

def Effect.isCreateSteps : Effect → Bool
  | .createSteps .. => true
  | _ => false

def Effect.isUpdateStep : Effect → Bool
  | .updateStep .. => true
  | _ => false

def Effect.isLogTask : Effect → Bool
  | .logTask _ => true
  | _ => false

/-- A log write whose task_status is Failed. -/
def Effect.isFailedLog : Effect → Bool
  | .logTask l => l.task_status == some "Failed"
  | _ => false

/-- Python falsy-or, as in `output or step.get("input_query")` of
_complete_step: a None or empty-string output falls back to the input
query. -/
def pyOr (output : Option String) (fallback : String) : String :=
  match output with
  | none => fallback
  | some s => if s = "" then fallback else s

namespace OpenAITools

/-- src/utils/openai_tools.py, OpenAITools.translate_text.  The OpenAI chat
completion call is modelled by its outcome: ok with the completion text, or
error with the exception message.  The whole body is wrapped in
try/except Exception, so the function always returns a string and never
raises: the error is turned into the string "Error: " followed by the
message. -/
def translate_text (apiResult : Except String String) : String :=
  match apiResult with
  | .ok content => content
  | .error e => "Error: " ++ e

end OpenAITools

namespace SimpleAgent

/-- src/1_simple_agent.py, translate_text: same structure as
OpenAITools.translate_text, a try/except whose except branch returns
"Error: " followed by the exception message. -/
def translate_text (apiResult : Except String String) : String :=
  match apiResult with
  | .ok content => content
  | .error e => "Error: " ++ e

end SimpleAgent

namespace IPFSHelper

/-- Filesystem and pinning effects of IPFSHelper.upload_file_to_ipfs. -/
inductive FsEffect where
  | pinFile (filename : String)
  | removeFile (filename : String)
deriving Repr, DecidableEq

/-- External inputs of upload_file_to_ipfs: the outcome of
pinata.pin_file_to_ipfs followed by the IpfsHash lookup (ok cid, or error
with the exception message), and whether os.path.exists(filename) holds at
cleanup time. -/
structure PinEnv where
  pinResult : Except String String
  fileExists : Bool
deriving Repr

/-- src/utils/ipfs_helper.py, IPFSHelper.upload_file_to_ipfs.  Returns the
CID on success or, on any exception, a wrapped error
"Failed to upload file to Pinata: " followed by the message; in both cases
the finally block removes the file when it exists.  The effect trace records
the pin attempt and the conditional removal, in order. -/
def upload_file_to_ipfs (env : PinEnv) (filename : String) :
    Except String String × List FsEffect :=
  let cleanup := if env.fileExists then [FsEffect.removeFile filename] else []
  match env.pinResult with
  | .ok cid => (.ok cid, [FsEffect.pinFile filename] ++ cleanup)
  | .error e =>
      (.error ("Failed to upload file to Pinata: " ++ e),
       [FsEffect.pinFile filename] ++ cleanup)

end IPFSHelper

namespace A2A

/-
  src/4_agent2agent.py, class TranslatorAgent.  The environment-driven
  constants THIRD_PARTY_PLAN_DID and THIRD_PARTY_AGENT_DID are modelled as
  fixed symbolic strings.
-/

def THIRD_PARTY_PLAN_DID : String := "THIRD_PARTY_PLAN_DID"

def THIRD_PARTY_AGENT_DID : String := "THIRD_PARTY_AGENT_DID"

/-- _is_step_pending: the step_status string equals
AgentExecutionStatus.Pending.value. -/
def is_step_pending (step : Step) : Bool :=
  step.step_status == "Pending"

/-- _log_task: builds a TaskLog with level "info" and sets task_status only
when the status argument is truthy (Python `if status:` — None and the empty
string are falsy). -/
def log_task (task_id : String) (message : String) (status : Option String) :
    TaskLog :=
  let base : TaskLog := { task_id := task_id, message := message, level := "info" }
  match status with
  | none => base
  | some s => if s = "" then base else { base with task_status := some s }

/-- _complete_step: updates the step to status Completed with
output := output or input_query, is_last copied from the step, and
output_artifacts only when the argument is truthy; when the step is the last
one, a Completed task log follows. -/
def complete_step (step : Step) (message : String) (output : Option String)
    (output_artifacts : Option (List String)) : List Effect :=
  let update_data : StepUpdate :=
    { step_status := some "Completed",
      output := some (pyOr output step.input_query),
      is_last := some step.is_last,
      output_artifacts :=
        match output_artifacts with
        | none => none
        | some l => if l = [] then none else some l }
  [Effect.updateStep step.did step.task_id step.step_id update_data]
    ++ (if step.is_last then
          [Effect.logTask (log_task step.task_id message (some "Completed"))]
        else [])

/-- _handle_init_step: registers two successor steps (translate then
text2speech) via create_steps, then completes the init step.  The two fresh
identifiers produced by generate_step_id are parameters. -/
def handle_init_step (translate_step_id : String) (text2speech_step_id : String)
    (step : Step) : List Effect :=
  let steps : List NewStep :=
    [ { step_id := translate_step_id,
        task_id := step.task_id,
        predecessor := step.step_id,
        name := "translate",
        is_last := false },
      { step_id := text2speech_step_id,
        task_id := step.task_id,
        predecessor := translate_step_id,
        name := "text2speech",
        is_last := true } ]
  [Effect.createSteps step.did step.task_id steps]
    ++ complete_step step "Init step completed" none none

/-- _handle_translate_step: logs the start (Pending), calls
OpenAITools.translate_text on the input query, and completes the step with
the returned string as output.  The except branch of the source is
unreachable here: translate_text catches the API failure internally and
returns an error string, and the modelled SDK calls do not fail. -/
def handle_translate_step (api : Except String String) (data : EventData)
    (step : Step) : List Effect :=
  [Effect.logTask (log_task data.task_id "Starting translation" (some "Pending"))]
    ++ (let translated_text := OpenAITools.translate_text api
        complete_step step "Translation complete" (some translated_text) none)

/-- External inputs of _ensure_sufficient_balance: the integer plan balance
returned by get_plan_balance, and the success flag of order_plan. -/
structure BalanceEnv where
  balance : Int
  orderSuccess : Bool
deriving Repr, DecidableEq

/-- _ensure_sufficient_balance: reads the plan balance; when it is below 1,
orders the plan once and returns the response success flag, otherwise
returns true.  The trace records the balance read and the conditional
order. -/
def ensure_sufficient_balance (env : BalanceEnv) (plan_did : String) :
    Bool × List Effect :=
  if env.balance < 1 then
    (env.orderSuccess, [Effect.getPlanBalance plan_did, Effect.orderPlan plan_did])
  else
    (true, [Effect.getPlanBalance plan_did])

/-- External inputs of the create_task call in _handle_text2speech_step:
the HTTP status code, the created task identifier read from the 201
response body, and the response text used in the error log. -/
structure CreateTaskResult where
  status_code : Nat
  created_task_id : String
  text : String
deriving Repr, DecidableEq

/-- External inputs of _handle_text2speech_step. -/
structure T2SEnv where
  balanceEnv : BalanceEnv
  createResult : CreateTaskResult
deriving Repr, DecidableEq

/-- _handle_text2speech_step: logs the start (Pending); ensures the
third-party plan balance; on insufficient balance logs a Failed entry and
returns; otherwise creates the remote task (task_data carries the input
query and the step name; additional_params and artifacts are empty lists).
On a 201 response it logs the created subtask id with status In_Progress and
marks the local step In_Progress; otherwise it logs a Failed entry with the
response text.  The registered callback runs later and is modelled
separately as task_callback. -/
def handle_text2speech_step (env : T2SEnv) (data : EventData) (step : Step) :
    List Effect :=
  let startLog :=
    Effect.logTask (log_task data.task_id "Starting text-to-speech" (some "Pending"))
  let balResult := ensure_sufficient_balance env.balanceEnv THIRD_PARTY_PLAN_DID
  if balResult.1 = false then
    [startLog] ++ balResult.2
      ++ [Effect.logTask (log_task data.task_id
            "Insufficient balance for third-party plan" (some "Failed"))]
  else
    let createEff := Effect.createTask THIRD_PARTY_AGENT_DID step.input_query step.name
    if env.createResult.status_code = 201 then
      [startLog] ++ balResult.2
        ++ [createEff,
            Effect.logTask (log_task data.task_id
              ("Subtask with id " ++ env.createResult.created_task_id
                ++ " created successfully") (some "In_Progress")),
            Effect.updateStep step.did step.task_id step.step_id
              { step_status := some "In_Progress" }]
    else
      [startLog] ++ balResult.2
        ++ [createEff,
            Effect.logTask (log_task data.task_id
              ("Error creating subtask: " ++ env.createResult.text)
              (some "Failed"))]

/-- The remote subtask record fetched by get_task_with_steps in
_subtask_finished: its task_status string, and the optional output and
output_artifacts fields (read with .get defaults "" and []). -/
structure SubtaskData where
  task_status : String
  output : Option String
  output_artifacts : Option (List String)
deriving Repr, DecidableEq

/-- _subtask_finished: fetches the remote task, computes
status := Completed when the remote task_status is "Completed" else Failed,
and calls _complete_step with the message chosen by that status and with the
remote output and output_artifacts (defaulted to "" and []). -/
def subtask_finished (sub : SubtaskData) (subtask_id : String) (step : Step) :
    List Effect :=
  let status :=
    if sub.task_status = "Completed" then "Completed" else "Failed"
  [Effect.getTaskWithSteps THIRD_PARTY_AGENT_DID subtask_id]
    ++ complete_step step
        (if status = "Completed" then "Subtask completed" else "Subtask failed")
        (some (sub.output.getD ""))
        (some (sub.output_artifacts.getD []))

/-- The parsed callback payload json.loads(callback_data): the optional
task_status and message (read with .get defaults None and ""), and the
remote task_id. -/
structure CallbackData where
  task_status : Option String
  task_id : String
  message : Option String
deriving Repr, DecidableEq

/-- task_callback (defined inside _handle_text2speech_step): on
task_status "Completed" runs _subtask_finished on the remote task; on
"Failed" logs a Failed entry "Error in subtask: " plus the callback message;
any other status is forwarded as a plain log entry with that status. -/
def task_callback (sub : SubtaskData) (cb : CallbackData) (data : EventData)
    (step : Step) : List Effect :=
  if cb.task_status = some "Completed" then
    subtask_finished sub cb.task_id step
  else if cb.task_status = some "Failed" then
    [Effect.logTask (log_task data.task_id
      ("Error in subtask: " ++ cb.message.getD "") (some "Failed"))]
  else
    [Effect.logTask (log_task data.task_id (cb.message.getD "") cb.task_status)]

/-- External inputs of TranslatorAgent.run: the two fresh step identifiers
used by the init handler, the translation API outcome, and the
text2speech-delegation inputs. -/
structure RunEnv where
  translate_step_id : String
  text2speech_step_id : String
  api : Except String String
  t2s : T2SEnv
deriving Repr

/-- TranslatorAgent.run: fetches the step (passed here as an argument),
returns immediately unless it is Pending, then dispatches on the step name;
an unknown name raises ValueError, caught by the surrounding except which
logs the error against the task as Failed.  In this model the three handlers
do not raise, so the except fires only on the unknown-name branch. -/
def run (env : RunEnv) (data : EventData) (step : Step) : List Effect :=
  if is_step_pending step then
    if step.name = "init" then
      handle_init_step env.translate_step_id env.text2speech_step_id step
    else if step.name = "translate" then
      handle_translate_step env.api data step
    else if step.name = "text2speech" then
      handle_text2speech_step env.t2s data step
    else
      [Effect.logTask (log_task data.task_id
        ("Error processing step \x27" ++ step.name ++ "\x27: Unknown step name: "
          ++ step.name) (some "Failed"))]
  else []

end A2A

namespace M3

/-
  src/3_multistep_agent.py, class TranslatorAgent.  Its _log_task and
  _handle_init_step match the ones of src/4_agent2agent.py; _complete_step
  additionally repeats the step_id and task_id keys inside the update dict.
-/

/-- _complete_step of src/3_multistep_agent.py: like the one of
src/4_agent2agent.py but the update dict also carries step_id and
task_id. -/
def complete_step (step : Step) (message : String) (output : Option String)
    (output_artifacts : Option (List String)) : List Effect :=
  let update_data : StepUpdate :=
    { step_id := some step.step_id,
      task_id := some step.task_id,
      step_status := some "Completed",
      output := some (pyOr output step.input_query),
      is_last := some step.is_last,
      output_artifacts :=
        match output_artifacts with
        | none => none
        | some l => if l = [] then none else some l }
  [Effect.updateStep step.did step.task_id step.step_id update_data]
    ++ (if step.is_last then
          [Effect.logTask (A2A.log_task step.task_id message (some "Completed"))]
        else [])

/-- _handle_init_step of src/3_multistep_agent.py: registers the translate
and text2speech successor steps, then completes the init step. -/
def handle_init_step (translate_step_id : String) (text2speech_step_id : String)
    (current_step : Step) : List Effect :=
  let new_steps : List NewStep :=
    [ { step_id := translate_step_id,
        task_id := current_step.task_id,
        predecessor := current_step.step_id,
        name := "translate",
        is_last := false },
      { step_id := text2speech_step_id,
        task_id := current_step.task_id,
        predecessor := translate_step_id,
        name := "text2speech",
        is_last := true } ]
  [Effect.createSteps current_step.did current_step.task_id new_steps]
    ++ complete_step current_step "Init step completed" none none

end M3

namespace Text2SpeechAgent

/-
  src/5_third_party_agent.py, class Text2SpeechAgent.  The outcome of
  _process_text2speech (the IPFS URL, or the wrapped error message of the
  RuntimeError it raises) is the external input.
-/

/-- Text2SpeechAgent.run: returns immediately unless the fetched step is
Pending; otherwise logs the start (no status), runs the text-to-speech
pipeline, and either updates the step to Completed with the IPFS URL and
logs completion, or logs the error as Failed. -/
def run (speech : Except String String) (data : EventData) (step : Step) :
    List Effect :=
  if step.step_status == "Pending" then
    [Effect.logTask
      { task_id := data.task_id, message := "Starting Text2Speech", level := "info" }]
      ++ (match speech with
          | .ok ipfs_url =>
              [Effect.updateStep data.did data.task_id data.step_id
                { step_id := some data.step_id,
                  task_id := some data.task_id,
                  step_status := some "Completed",
                  output := some ipfs_url,
                  output_artifacts := some [ipfs_url],
                  is_last := some true },
               Effect.logTask
                { task_id := data.task_id, message := "Text2Speech complete",
                  level := "info", task_status := some "Completed" }]
          | .error e =>
              [Effect.logTask
                { task_id := data.task_id,
                  message := "Error with Text2Speech: " ++ e,
                  level := "error", task_status := some "Failed" }])
  else []

end Text2SpeechAgent

/-- A string starting with the literal "Error: " is never empty. -/
lemma error_prefixed_ne_empty (e : String) : "Error: " ++ e ≠ "" := by
  intro h
  have h2 : ("Error: " ++ e).data = "".data := by rw [h]
  rw [String.data_append] at h2
  simp at h2

/-- C6: for every input, translate_text returns a string and never raises:
on success it returns the completion text, and on any API failure it returns
"Error: " followed by the failure message instead of propagating the
exception.  Both the utils variant and the simple-agent variant behave this
way; totality of the Lean functions models the absence of an escaping
exception. -/
theorem C6_translate_text_total_error_string :
    (∀ c : String, OpenAITools.translate_text (Except.ok c) = c)
    ∧ (∀ e : String, OpenAITools.translate_text (Except.error e) = "Error: " ++ e)
    ∧ (∀ c : String, SimpleAgent.translate_text (Except.ok c) = c)
    ∧ (∀ e : String, SimpleAgent.translate_text (Except.error e) = "Error: " ++ e) :=
  ⟨fun _ => rfl, fun _ => rfl, fun _ => rfl, fun _ => rfl⟩

/-- C8: upload_file_to_ipfs removes the named local file afterwards whenever
it exists, both when the pin upload succeeds (the CID is returned) and when
it fails (a wrapped error is raised); when the file does not exist no
removal happens.  The removal is the last effect, after the pin attempt,
regardless of the outcome — the finally-equivalent cleanup. -/
theorem C8_ipfs_cleanup_always_removes (env : IPFSHelper.PinEnv) (filename : String) :
    (env.fileExists = true →
      (IPFSHelper.upload_file_to_ipfs env filename).2
        = [IPFSHelper.FsEffect.pinFile filename,
           IPFSHelper.FsEffect.removeFile filename])
    ∧ (env.fileExists = false →
      IPFSHelper.FsEffect.removeFile filename
        ∉ (IPFSHelper.upload_file_to_ipfs env filename).2)
    ∧ (∀ cid, env.pinResult = Except.ok cid →
        (IPFSHelper.upload_file_to_ipfs env filename).1 = Except.ok cid)
    ∧ (∀ e, env.pinResult = Except.error e →
        (IPFSHelper.upload_file_to_ipfs env filename).1
          = Except.error ("Failed to upload file to Pinata: " ++ e)) := by
  obtain ⟨pr, fe⟩ := env
  cases pr <;> cases fe <;>
    simp [IPFSHelper.upload_file_to_ipfs]

/-- Closed instance of C8 at a concrete environment: a successful pin of
"f.mp3" with the file present returns the CID and removes the file; a failed
pin with the file present raises the wrapped error and still removes the
file. -/
theorem C8_ipfs_cleanup_always_removes_witness :
    (IPFSHelper.upload_file_to_ipfs ⟨Except.ok "cid1", true⟩ "f.mp3").2
      = [IPFSHelper.FsEffect.pinFile "f.mp3", IPFSHelper.FsEffect.removeFile "f.mp3"]
    ∧ (IPFSHelper.upload_file_to_ipfs ⟨Except.ok "cid1", true⟩ "f.mp3").1
        = Except.ok "cid1"
    ∧ (IPFSHelper.upload_file_to_ipfs ⟨Except.error "down", true⟩ "f.mp3").1
        = Except.error ("Failed to upload file to Pinata: " ++ "down") :=
  ⟨(C8_ipfs_cleanup_always_removes ⟨Except.ok "cid1", true⟩ "f.mp3").1 rfl,
   (C8_ipfs_cleanup_always_removes ⟨Except.ok "cid1", true⟩ "f.mp3").2.2.1 "cid1" rfl,
   (C8_ipfs_cleanup_always_removes ⟨Except.error "down", true⟩ "f.mp3").2.2.2 "down" rfl⟩

/-- C4: for every dispatched event whose fetched step has a status other
than Pending, both dispatchers (TranslatorAgent.run of src/4_agent2agent.py
and Text2SpeechAgent.run of src/5_third_party_agent.py) return without any
state mutation and without writing any task log: the effect trace is
empty. -/
theorem C4_nonpending_dispatch_is_noop (env : A2A.RunEnv)
    (speech : Except String String) (data : EventData) (step : Step)
    (h : step.step_status ≠ "Pending") :
    A2A.run env data step = [] ∧ Text2SpeechAgent.run speech data step = [] := by
  constructor
  · simp [A2A.run, A2A.is_step_pending, h]
  · simp [Text2SpeechAgent.run, h]

/-- Closed instance of C4: a Completed step is skipped by both
dispatchers. -/
theorem C4_nonpending_dispatch_is_noop_witness :
    A2A.run ⟨"ts1", "ts2", Except.ok "ok", ⟨⟨1, true⟩, ⟨201, "x", "t"⟩⟩⟩
        ⟨"s1", "t1", "d1"⟩
        ⟨"s1", "t1", "d1", "translate", "Completed", "Hola", false⟩ = []
    ∧ Text2SpeechAgent.run (Except.ok "url")
        ⟨"s1", "t1", "d1"⟩
        ⟨"s1", "t1", "d1", "text2speech", "Completed", "Hola", true⟩ = [] :=
  ⟨(C4_nonpending_dispatch_is_noop ⟨"ts1", "ts2", Except.ok "ok", ⟨⟨1, true⟩, ⟨201, "x", "t"⟩⟩⟩
      (Except.ok "url")
      ⟨"s1", "t1", "d1"⟩ ⟨"s1", "t1", "d1", "translate", "Completed", "Hola", false⟩
      (by decide)).1,
   (C4_nonpending_dispatch_is_noop ⟨"ts1", "ts2", Except.ok "ok", ⟨⟨1, true⟩, ⟨201, "x", "t"⟩⟩⟩
      (Except.ok "url")
      ⟨"s1", "t1", "d1"⟩ ⟨"s1", "t1", "d1", "text2speech", "Completed", "Hola", true⟩
      (by decide)).2⟩

/-- C7: dispatching a Pending step whose name is none of init, translate,
text2speech produces exactly one task log entry, with status Failed and a
message reporting the unrecognized step name, and performs no step update,
no successor creation and no remote task creation. -/
theorem C7_unknown_step_single_failed_log (env : A2A.RunEnv) (data : EventData)
    (step : Step) (hp : step.step_status = "Pending")
    (h1 : step.name ≠ "init") (h2 : step.name ≠ "translate")
    (h3 : step.name ≠ "text2speech") :
    A2A.run env data step
      = [Effect.logTask
          { task_id := data.task_id,
            message := "Error processing step \x27" ++ step.name
              ++ "\x27: Unknown step name: " ++ step.name,
            level := "info", task_status := some "Failed" }]
    ∧ (A2A.run env data step).countP Effect.isUpdateStep = 0
    ∧ (A2A.run env data step).countP Effect.isCreateSteps = 0
    ∧ (A2A.run env data step).countP Effect.isCreateTask = 0
    ∧ (A2A.run env data step).countP Effect.isFailedLog = 1 := by
  have htrace : A2A.run env data step
      = [Effect.logTask
          { task_id := data.task_id,
            message := "Error processing step \x27" ++ step.name
              ++ "\x27: Unknown step name: " ++ step.name,
            level := "info", task_status := some "Failed" }] := by
    simp [A2A.run, A2A.is_step_pending, A2A.log_task, hp, h1, h2, h3]
  refine ⟨htrace, ?_, ?_, ?_, ?_⟩ <;>
    simp [htrace, Effect.isUpdateStep, Effect.isCreateSteps, Effect.isCreateTask,
      Effect.isFailedLog]

/-- Closed instance of C7 at a Pending step named "summarize". -/
theorem C7_unknown_step_single_failed_log_witness :
    A2A.run ⟨"ts1", "ts2", Except.ok "ok", ⟨⟨1, true⟩, ⟨201, "x", "t"⟩⟩⟩
        ⟨"s1", "t1", "d1"⟩
        ⟨"s1", "t1", "d1", "summarize", "Pending", "Hola", false⟩
      = [Effect.logTask
          { task_id := "t1",
            message := "Error processing step \x27" ++ "summarize"
              ++ "\x27: Unknown step name: " ++ "summarize",
            level := "info", task_status := some "Failed" }] :=
  (C7_unknown_step_single_failed_log
    ⟨"ts1", "ts2", Except.ok "ok", ⟨⟨1, true⟩, ⟨201, "x", "t"⟩⟩⟩
    ⟨"s1", "t1", "d1"⟩
    ⟨"s1", "t1", "d1", "summarize", "Pending", "Hola", false⟩
    rfl (by decide) (by decide) (by decide)).1

/-- C3: handling a Pending init step registers exactly one create_steps
call carrying exactly two successor steps: a translate step whose
predecessor is the init step and which is not last, and a text2speech step
whose predecessor is the translate step and which alone is last.  This
holds for the handler of src/4_agent2agent.py (through the dispatcher) and
for the identical handler of src/3_multistep_agent.py. -/
theorem C3_init_creates_translate_then_t2s (env : A2A.RunEnv) (data : EventData)
    (step : Step) (hp : step.step_status = "Pending") (hn : step.name = "init") :
    (∃ s1 s2,
       Effect.createSteps step.did step.task_id [s1, s2] ∈ A2A.run env data step
       ∧ s1.name = "translate" ∧ s1.predecessor = step.step_id ∧ s1.is_last = false
       ∧ s2.name = "text2speech" ∧ s2.predecessor = s1.step_id ∧ s2.is_last = true)
    ∧ (A2A.run env data step).countP Effect.isCreateSteps = 1
    ∧ (∃ t1 t2,
       Effect.createSteps step.did step.task_id [t1, t2]
         ∈ M3.handle_init_step env.translate_step_id env.text2speech_step_id step
       ∧ t1.name = "translate" ∧ t1.predecessor = step.step_id ∧ t1.is_last = false
       ∧ t2.name = "text2speech" ∧ t2.predecessor = t1.step_id ∧ t2.is_last = true)
    ∧ (M3.handle_init_step env.translate_step_id env.text2speech_step_id step).countP
        Effect.isCreateSteps = 1 := by
  have hrun : A2A.run env data step
      = A2A.handle_init_step env.translate_step_id env.text2speech_step_id step := by
    simp [A2A.run, A2A.is_step_pending, hp, hn]
  refine ⟨⟨⟨env.translate_step_id, step.task_id, step.step_id, "translate", false⟩,
        ⟨env.text2speech_step_id, step.task_id, env.translate_step_id, "text2speech", true⟩,
        ?_, rfl, rfl, rfl, rfl, rfl, rfl⟩, ?_,
      ⟨⟨env.translate_step_id, step.task_id, step.step_id, "translate", false⟩,
        ⟨env.text2speech_step_id, step.task_id, env.translate_step_id, "text2speech", true⟩,
        ?_, rfl, rfl, rfl, rfl, rfl, rfl⟩, ?_⟩
  · rw [hrun]; simp [A2A.handle_init_step]
  · rw [hrun]
    by_cases hl : step.is_last <;>
      simp [A2A.handle_init_step, A2A.complete_step, A2A.log_task, hl,
        Effect.isCreateSteps]
  · simp [M3.handle_init_step]
  · by_cases hl : step.is_last <;>
      simp [M3.handle_init_step, M3.complete_step, A2A.log_task, hl,
        Effect.isCreateSteps]

/-- Closed instance of C3 at a concrete Pending init step. -/
theorem C3_init_creates_translate_then_t2s_witness :
    ∃ s1 s2,
      Effect.createSteps "d1" "t1" [s1, s2]
        ∈ A2A.run ⟨"ts1", "ts2", Except.ok "ok", ⟨⟨1, true⟩, ⟨201, "x", "t"⟩⟩⟩
            ⟨"s0", "t1", "d1"⟩ ⟨"s0", "t1", "d1", "init", "Pending", "Hola", false⟩
      ∧ s1.name = "translate" ∧ s1.predecessor = "s0" ∧ s1.is_last = false
      ∧ s2.name = "text2speech" ∧ s2.predecessor = s1.step_id ∧ s2.is_last = true :=
  (C3_init_creates_translate_then_t2s
    ⟨"ts1", "ts2", Except.ok "ok", ⟨⟨1, true⟩, ⟨201, "x", "t"⟩⟩⟩
    ⟨"s0", "t1", "d1"⟩ ⟨"s0", "t1", "d1", "init", "Pending", "Hola", false⟩
    rfl rfl).1

/-- C2: for a Pending text2speech delegation step whose plan balance is 0,
the handler makes exactly one top-up attempt (one order_plan call), and it
happens before any remote task creation (the prefix of the trace preceding
the first create_task already contains the one order_plan); when the top-up
fails no remote task is created, no step update is performed, and exactly
one Failed task log is written. -/
theorem C2_zero_balance_single_topup (env : A2A.RunEnv) (data : EventData)
    (step : Step) (hp : step.step_status = "Pending")
    (hn : step.name = "text2speech") (hbal : env.t2s.balanceEnv.balance = 0) :
    (A2A.run env data step).countP Effect.isOrderPlan = 1
    ∧ ((A2A.run env data step).takeWhile (fun e => !e.isCreateTask)).countP
        Effect.isOrderPlan = 1
    ∧ (env.t2s.balanceEnv.orderSuccess = false →
        (A2A.run env data step).countP Effect.isCreateTask = 0
        ∧ (A2A.run env data step).countP Effect.isUpdateStep = 0
        ∧ (A2A.run env data step).countP Effect.isFailedLog = 1) := by
  obtain ⟨tsid, t2sid, api, ⟨⟨bal, ord⟩, ⟨code, ctid, ctext⟩⟩⟩ := env
  simp only at hbal ⊢
  subst hbal
  have hrun : A2A.run ⟨tsid, t2sid, api, ⟨⟨0, ord⟩, ⟨code, ctid, ctext⟩⟩⟩ data step
      = A2A.handle_text2speech_step ⟨⟨0, ord⟩, ⟨code, ctid, ctext⟩⟩ data step := by
    simp [A2A.run, A2A.is_step_pending, hp, hn]
  rw [hrun]
  cases ord <;> by_cases hc : code = 201 <;>
    simp [A2A.handle_text2speech_step, A2A.ensure_sufficient_balance, A2A.log_task,
      hc, Effect.isOrderPlan, Effect.isCreateTask, Effect.isUpdateStep,
      Effect.isFailedLog, List.takeWhile_cons]

/-- Closed instance of C2: balance 0 with a failing top-up leads to one
order_plan, no create_task, no update_step and one Failed log. -/
theorem C2_zero_balance_single_topup_witness :
    (A2A.run ⟨"ts1", "ts2", Except.ok "ok", ⟨⟨0, false⟩, ⟨500, "x", "err"⟩⟩⟩
        ⟨"s2", "t1", "d1"⟩
        ⟨"s2", "t1", "d1", "text2speech", "Pending", "Hola", true⟩).countP
      Effect.isOrderPlan = 1
    ∧ ((A2A.run ⟨"ts1", "ts2", Except.ok "ok", ⟨⟨0, false⟩, ⟨500, "x", "err"⟩⟩⟩
          ⟨"s2", "t1", "d1"⟩
          ⟨"s2", "t1", "d1", "text2speech", "Pending", "Hola", true⟩).countP
        Effect.isCreateTask = 0
      ∧ (A2A.run ⟨"ts1", "ts2", Except.ok "ok", ⟨⟨0, false⟩, ⟨500, "x", "err"⟩⟩⟩
          ⟨"s2", "t1", "d1"⟩
          ⟨"s2", "t1", "d1", "text2speech", "Pending", "Hola", true⟩).countP
        Effect.isUpdateStep = 0
      ∧ (A2A.run ⟨"ts1", "ts2", Except.ok "ok", ⟨⟨0, false⟩, ⟨500, "x", "err"⟩⟩⟩
          ⟨"s2", "t1", "d1"⟩
          ⟨"s2", "t1", "d1", "text2speech", "Pending", "Hola", true⟩).countP
        Effect.isFailedLog = 1) :=
  ⟨(C2_zero_balance_single_topup
      ⟨"ts1", "ts2", Except.ok "ok", ⟨⟨0, false⟩, ⟨500, "x", "err"⟩⟩⟩
      ⟨"s2", "t1", "d1"⟩
      ⟨"s2", "t1", "d1", "text2speech", "Pending", "Hola", true⟩
      rfl rfl rfl).1,
   (C2_zero_balance_single_topup
      ⟨"ts1", "ts2", Except.ok "ok", ⟨⟨0, false⟩, ⟨500, "x", "err"⟩⟩⟩
      ⟨"s2", "t1", "d1"⟩
      ⟨"s2", "t1", "d1", "text2speech", "Pending", "Hola", true⟩
      rfl rfl rfl).2.2 rfl⟩

/-- Every update_step emitted by _complete_step of src/4_agent2agent.py
carries step_status Completed and output := output or input_query. -/
lemma A2A_complete_step_update_fields (step : Step) (message : String)
    (output : Option String) (arts : Option (List String))
    (did taskId stepId : String) (upd : StepUpdate)
    (h : Effect.updateStep did taskId stepId upd
          ∈ A2A.complete_step step message output arts) :
    upd.step_status = some "Completed"
    ∧ upd.output = some (pyOr output step.input_query) := by
  by_cases hl : step.is_last <;>
    simp [A2A.complete_step, A2A.log_task, hl] at h <;>
    · obtain ⟨-, -, -, rfl⟩ := h
      exact ⟨rfl, rfl⟩

/-- Every update_step emitted by _complete_step of src/3_multistep_agent.py
carries step_status Completed and output := output or input_query. -/
lemma M3_complete_step_update_fields (step : Step) (message : String)
    (output : Option String) (arts : Option (List String))
    (did taskId stepId : String) (upd : StepUpdate)
    (h : Effect.updateStep did taskId stepId upd
          ∈ M3.complete_step step message output arts) :
    upd.step_status = some "Completed"
    ∧ upd.output = some (pyOr output step.input_query) := by
  by_cases hl : step.is_last <;>
    simp [M3.complete_step, A2A.log_task, hl] at h <;>
    · obtain ⟨-, -, -, rfl⟩ := h
      exact ⟨rfl, rfl⟩

/-- C9: every invocation of _subtask_finished writes the local step exactly
once, always with step_status Completed — also when the fetched remote task
is not Completed; the Failed status computed from the remote task changes
only the log message, never the stored update (the update_step effects are
identical for every remote task_status). -/
theorem C9_subtask_finished_always_marks_completed (sub : A2A.SubtaskData)
    (subtask_id : String) (step : Step) :
    (A2A.subtask_finished sub subtask_id step).countP Effect.isUpdateStep = 1
    ∧ (∀ did taskId stepId upd,
        Effect.updateStep did taskId stepId upd
          ∈ A2A.subtask_finished sub subtask_id step →
        upd.step_status = some "Completed")
    ∧ (∀ s, (A2A.subtask_finished { sub with task_status := s }
          subtask_id step).filter Effect.isUpdateStep
        = (A2A.subtask_finished sub subtask_id step).filter Effect.isUpdateStep) := by
  refine ⟨?_, ?_, ?_⟩
  · by_cases hl : step.is_last <;>
      simp [A2A.subtask_finished, A2A.complete_step, A2A.log_task, hl,
        Effect.isUpdateStep]
  · intro did taskId stepId upd h
    rw [A2A.subtask_finished, List.mem_append] at h
    rcases h with h | h
    · simp at h
    · exact (A2A_complete_step_update_fields _ _ _ _ _ _ _ _ h).1
  · intro s
    by_cases hl : step.is_last <;>
      simp [A2A.subtask_finished, A2A.complete_step, A2A.log_task, hl,
        Effect.isUpdateStep]

/-- Closed instance of C9: a remote task fetched with task_status "Failed"
still leads to a single update_step carrying step_status Completed. -/
theorem C9_subtask_finished_always_marks_completed_witness :
    (A2A.subtask_finished ⟨"Failed", some "out", some []⟩ "sub1"
        ⟨"s2", "t1", "d1", "text2speech", "In_Progress", "hello", true⟩).countP
      Effect.isUpdateStep = 1
    ∧ (⟨none, none, some "Completed", some "out", some true, none⟩
        : StepUpdate).step_status = some "Completed" :=
  ⟨(C9_subtask_finished_always_marks_completed ⟨"Failed", some "out", some []⟩ "sub1"
      ⟨"s2", "t1", "d1", "text2speech", "In_Progress", "hello", true⟩).1,
   (C9_subtask_finished_always_marks_completed ⟨"Failed", some "out", some []⟩ "sub1"
      ⟨"s2", "t1", "d1", "text2speech", "In_Progress", "hello", true⟩).2.1
     "d1" "t1" "s2" ⟨none, none, some "Completed", some "out", some true, none⟩
     (by decide)⟩

/-- C10: when _complete_step (in src/4_agent2agent.py and in
src/3_multistep_agent.py) receives an output argument that is None or the
empty string, the stored output field becomes the step input_query; a
non-empty output argument is stored unchanged. -/
theorem C10_empty_output_falls_back_to_input_query (step : Step)
    (message : String) (output : Option String) (arts : Option (List String)) :
    ((output = none ∨ output = some "") →
      (∀ did taskId stepId upd,
         Effect.updateStep did taskId stepId upd
           ∈ A2A.complete_step step message output arts →
         upd.output = some step.input_query)
      ∧ (∀ did taskId stepId upd,
         Effect.updateStep did taskId stepId upd
           ∈ M3.complete_step step message output arts →
         upd.output = some step.input_query))
    ∧ (∀ s, s ≠ "" → output = some s →
      (∀ did taskId stepId upd,
         Effect.updateStep did taskId stepId upd
           ∈ A2A.complete_step step message output arts →
         upd.output = some s)
      ∧ (∀ did taskId stepId upd,
         Effect.updateStep did taskId stepId upd
           ∈ M3.complete_step step message output arts →
         upd.output = some s)) := by
  constructor
  · intro hout
    refine ⟨fun did taskId stepId upd h => ?_, fun did taskId stepId upd h => ?_⟩
    · have h2 := (A2A_complete_step_update_fields _ _ _ _ _ _ _ _ h).2
      rcases hout with rfl | rfl <;> simpa [pyOr] using h2
    · have h2 := (M3_complete_step_update_fields _ _ _ _ _ _ _ _ h).2
      rcases hout with rfl | rfl <;> simpa [pyOr] using h2
  · intro s hs heq
    subst heq
    refine ⟨fun did taskId stepId upd h => ?_, fun did taskId stepId upd h => ?_⟩
    · have h2 := (A2A_complete_step_update_fields _ _ _ _ _ _ _ _ h).2
      simpa [pyOr, hs] using h2
    · have h2 := (M3_complete_step_update_fields _ _ _ _ _ _ _ _ h).2
      simpa [pyOr, hs] using h2

/-- Closed instance of C10: an empty-string output argument stores the
input query "Hola"; the non-empty output "Bonjour" is stored unchanged. -/
theorem C10_empty_output_falls_back_to_input_query_witness :
    ((⟨none, none, some "Completed", some "Hola", some false, none⟩
        : StepUpdate).output = some "Hola")
    ∧ ((⟨none, none, some "Completed", some "Bonjour", some false, none⟩
        : StepUpdate).output = some "Bonjour") :=
  ⟨((C10_empty_output_falls_back_to_input_query
      ⟨"s1", "t1", "d1", "translate", "Pending", "Hola", false⟩
      "m" (some "") none).1 (Or.inr rfl)).1 "d1" "t1" "s1"
      ⟨none, none, some "Completed", some "Hola", some false, none⟩ (by decide),
   ((C10_empty_output_falls_back_to_input_query
      ⟨"s1", "t1", "d1", "translate", "Pending", "Hola", false⟩
      "m" (some "Bonjour") none).2 "Bonjour" (by decide) rfl).1 "d1" "t1" "s1"
      ⟨none, none, some "Completed", some "Bonjour", some false, none⟩ (by decide)⟩

/-- C1 counterexample: a remote-task callback firing with terminal status
"Failed" on an In_Progress text2speech step performs NO step update at all
(in particular none setting the step to Failed, as the claim states): the
whole trace is one Failed task log entry. -/
theorem C1_counterexample_failed_callback_no_step_update :
    (A2A.task_callback
        ⟨"Completed", some "url1", some []⟩
        ⟨some "Failed", "sub1", some "boom"⟩
        ⟨"s2", "t1", "d1"⟩
        ⟨"s2", "t1", "d1", "text2speech", "In_Progress", "hello", true⟩).countP
      Effect.isUpdateStep = 0
    ∧ (A2A.task_callback
        ⟨"Completed", some "url1", some []⟩
        ⟨some "Failed", "sub1", some "boom"⟩
        ⟨"s2", "t1", "d1"⟩
        ⟨"s2", "t1", "d1", "text2speech", "In_Progress", "hello", true⟩).countP
      Effect.isFailedLog = 1 := by
  decide

/-- C1 amended: when the remote-task callback fires with terminal status
"Completed", the local step is updated to step_status Completed with output
equal to the remote task output (through output or input_query, so an empty
remote output is replaced by the step input query); when the callback fires
with terminal status "Failed", the local step is NOT updated — the handler
only writes one task-level Failed log entry. -/
theorem C1_remote_callback_terminal_amended (sub : A2A.SubtaskData)
    (cb : A2A.CallbackData) (data : EventData) (step : Step) :
    (cb.task_status = some "Completed" →
      ∃ upd, Effect.updateStep step.did step.task_id step.step_id upd
          ∈ A2A.task_callback sub cb data step
        ∧ upd.step_status = some "Completed"
        ∧ upd.output = some (pyOr (some (sub.output.getD "")) step.input_query))
    ∧ (cb.task_status = some "Failed" →
      A2A.task_callback sub cb data step
        = [Effect.logTask
            { task_id := data.task_id,
              message := "Error in subtask: " ++ cb.message.getD "",
              level := "info", task_status := some "Failed" }]) := by
  constructor
  · intro h
    have hmem : Effect.updateStep step.did step.task_id step.step_id
        { step_status := some "Completed",
          output := some (pyOr (some (sub.output.getD "")) step.input_query),
          is_last := some step.is_last,
          output_artifacts :=
            if sub.output_artifacts.getD [] = [] then none
            else some (sub.output_artifacts.getD []) }
        ∈ A2A.task_callback sub cb data step := by
      by_cases hl : step.is_last <;>
        simp [A2A.task_callback, h, A2A.subtask_finished, A2A.complete_step, hl]
    exact ⟨_, hmem, rfl, rfl⟩
  · intro h
    simp [A2A.task_callback, h, A2A.log_task]

/-- Closed instance of the amended C1, exercising both terminal callback
branches at concrete inputs. -/
theorem C1_remote_callback_terminal_amended_witness :
    (∃ upd, Effect.updateStep "d1" "t1" "s2" upd
        ∈ A2A.task_callback
            ⟨"Completed", some "url1", some []⟩
            ⟨some "Completed", "sub1", some ""⟩
            ⟨"s2", "t1", "d1"⟩
            ⟨"s2", "t1", "d1", "text2speech", "In_Progress", "hello", true⟩
      ∧ upd.step_status = some "Completed"
      ∧ upd.output = some (pyOr (some "url1") "hello"))
    ∧ A2A.task_callback
          ⟨"Completed", some "url1", some []⟩
          ⟨some "Failed", "sub1", some "boom"⟩
          ⟨"s2", "t1", "d1"⟩
          ⟨"s2", "t1", "d1", "text2speech", "In_Progress", "hello", true⟩
        = [Effect.logTask
            { task_id := "t1", message := "Error in subtask: " ++ "boom",
              level := "info", task_status := some "Failed" }] :=
  ⟨(C1_remote_callback_terminal_amended
      ⟨"Completed", some "url1", some []⟩ ⟨some "Completed", "sub1", some ""⟩
      ⟨"s2", "t1", "d1"⟩
      ⟨"s2", "t1", "d1", "text2speech", "In_Progress", "hello", true⟩).1 rfl,
   (C1_remote_callback_terminal_amended
      ⟨"Completed", some "url1", some []⟩ ⟨some "Failed", "sub1", some "boom"⟩
      ⟨"s2", "t1", "d1"⟩
      ⟨"s2", "t1", "d1", "text2speech", "In_Progress", "hello", true⟩).2 rfl⟩

/-- C5 counterexample: an upstream language-model failure ("boom") during a
Pending translate step is NOT converted into a Failed task log and the
handler does NOT abort: the trace contains zero Failed log entries, and the
step is marked Completed with the swallowed error string as output. -/
theorem C5_counterexample_upstream_failure_completes_step :
    (A2A.handle_translate_step (Except.error "boom")
        ⟨"s1", "t1", "d1"⟩
        ⟨"s1", "t1", "d1", "translate", "Pending", "Hola", false⟩).countP
      Effect.isFailedLog = 0
    ∧ Effect.updateStep "d1" "t1" "s1"
        ⟨none, none, some "Completed", some "Error: boom", some false, none⟩
        ∈ A2A.handle_translate_step (Except.error "boom")
            ⟨"s1", "t1", "d1"⟩
            ⟨"s1", "t1", "d1", "translate", "Pending", "Hola", false⟩ := by
  decide

/-- C5 amended: a failing upstream language-model call is swallowed by
translate_text into an "Error: " string, so the translate handler never
writes a Failed log entry and instead marks the step Completed with that
error string as its output; in particular the step never both completes and
produces a Failed log in the same invocation, because no invocation of the
handler produces a Failed log. -/
theorem C5_translate_failure_swallowed_amended (api : Except String String)
    (data : EventData) (step : Step) :
    (A2A.handle_translate_step api data step).countP Effect.isFailedLog = 0
    ∧ (∀ e, api = Except.error e →
        ∃ upd, Effect.updateStep step.did step.task_id step.step_id upd
            ∈ A2A.handle_translate_step api data step
          ∧ upd.step_status = some "Completed"
          ∧ upd.output = some ("Error: " ++ e)) := by
  constructor
  · by_cases hl : step.is_last <;>
      simp [A2A.handle_translate_step, A2A.complete_step, A2A.log_task, hl,
        Effect.isFailedLog]
  · rintro e rfl
    have hmem : Effect.updateStep step.did step.task_id step.step_id
        { step_status := some "Completed", output := some ("Error: " ++ e),
          is_last := some step.is_last }
        ∈ A2A.handle_translate_step (Except.error e) data step := by
      by_cases hl : step.is_last <;>
        simp [A2A.handle_translate_step, A2A.complete_step,
          OpenAITools.translate_text, pyOr, error_prefixed_ne_empty e, hl]
    exact ⟨_, hmem, rfl, rfl⟩

/-- Closed instance of the amended C5 at the failing input "boom". -/
theorem C5_translate_failure_swallowed_amended_witness :
    (A2A.handle_translate_step (Except.error "boom")
        ⟨"s1", "t1", "d1"⟩
        ⟨"s1", "t1", "d1", "translate", "Pending", "Hola", true⟩).countP
      Effect.isFailedLog = 0
    ∧ (∃ upd, Effect.updateStep "d1" "t1" "s1" upd
          ∈ A2A.handle_translate_step (Except.error "boom")
              ⟨"s1", "t1", "d1"⟩
              ⟨"s1", "t1", "d1", "translate", "Pending", "Hola", true⟩
        ∧ upd.step_status = some "Completed"
        ∧ upd.output = some ("Error: " ++ "boom")) :=
  ⟨(C5_translate_failure_swallowed_amended (Except.error "boom")
      ⟨"s1", "t1", "d1"⟩
      ⟨"s1", "t1", "d1", "translate", "Pending", "Hola", true⟩).1,
   (C5_translate_failure_swallowed_amended (Except.error "boom")
      ⟨"s1", "t1", "d1"⟩
      ⟨"s1", "t1", "d1", "translate", "Pending", "Hola", true⟩).2 "boom" rfl⟩

end Workshop
